import Mathlib

/-!
Verification of the virtual-node resolution and path-reconstruction engine
of a hierarchical organizational folder system (Holding → Company →
Department → real folders/files).

The definitions below are a shallow embedding of the backend code
(`backend/src/folders/virtual_folders.py`, `backend/src/folders/service.py`,
`backend/src/folders/routes.py`, and the frontend `VirtualFolderUtils`),
as documented with inline code in the implementation notes of the repository.
MongoDB collections become Lean lists, `find_one`/`find` become `List.find?`
and `List.filter`, `.sort("name", 1)` becomes `List.mergeSort` on names, and
the async directory lookups become pure functions over an explicit
`OrgDirectory` value.  Where the repository shows only the contract of a function (not its body),
the doc comment of the definition says so and follows the words of the
specification.
-/

namespace FreedomAdmin

/-- Python `s.startswith(p)` / TS `s.startsWith(p)` on strings, modelled on
the underlying character lists. -/
def strStartsWith (s p : String) : Bool :=
  p.data.isPrefixOf s.data

/-- The three virtual-folder kinds: `holding`, `company`, `department`. -/
inductive Kind where
  | holding
  | company
  | department
deriving DecidableEq

/-- The reserved id marker of each kind: `HOLDING_PREFIX = "holding:"`,
`COMPANY_PREFIX = "company:"`, `DEPARTMENT_PREFIX = "department:"`. -/
def kindCode : Kind → String
  | .holding => "holding:"
  | .company => "company:"
  | .department => "department:"

/-- `create_virtual_id(real_id, kind)`: the encoded virtual id
`<kind>:<realId>` (the documented Virtual Folder ID Format). -/
def create_virtual_id (realId : String) (kind : Kind) : String :=
  kindCode kind ++ realId

/-- `is_virtual_folder` / `VirtualFolderUtils.isVirtualFolder`: true iff the
id starts with one of the three reserved kind markers. -/
def is_virtual_folder (folder_id : String) : Bool :=
  strStartsWith folder_id "holding:" ||
  strStartsWith folder_id "company:" ||
  strStartsWith folder_id "department:"

/-- `get_virtual_folder_type` / `VirtualFolderUtils.getVirtualFolderType`:
the kind of a virtual id, or none; checks the three markers in the order used by the source. -/
def get_virtual_folder_type (folder_id : String) : Option Kind :=
  if strStartsWith folder_id "holding:" then some .holding
  else if strStartsWith folder_id "company:" then some .company
  else if strStartsWith folder_id "department:" then some .department
  else none

/-- Modelled from the spec: `extract_real_id` (the `decode` of the codec) strips
the recognized kind marker from a virtual id; its body does not appear in
the inline code of the repository, only its call sites do. -/
def extract_real_id (folder_id : String) : String :=
  match get_virtual_folder_type folder_id with
  | some k => ⟨folder_id.data.drop (kindCode k).data.length⟩
  | none => folder_id

/-- A holding document: root of the hierarchy, no parent. -/
structure Holding where
  id : String
  name : String
deriving DecidableEq

/-- A company document: owned by a holding. -/
structure Company where
  id : String
  name : String
  holding_id : String
deriving DecidableEq

/-- A department document: owned by a company; does not itself store a
holding id. -/
structure Department where
  id : String
  name : String
  company_id : String
deriving DecidableEq

/-- A `FolderResponse` record: the uniform node shape for both real stored
folders and synthesized virtual nodes.  Real folders carry a nullable
`parentID` and the organizational context triple; the empty string models a
missing/empty context field (Python falsy). -/
structure Folder where
  id : String
  name : String
  parentID : Option String
  fileIds : List String
  foldersids : List String
  company_id : String
  department_id : String
  holding_id : String
deriving DecidableEq

/-- The Organization Directory: the holdings, companies and departments
collections. -/
structure OrgDirectory where
  holdings : List Holding
  companies : List Company
  departments : List Department
deriving DecidableEq

/-- The folders collection (Folder Store) of real folders. -/
abbrev FolderStore := List Folder

/-- The four user roles. -/
inductive Role where
  | superadmin
  | admin
  | department_director
  | user
deriving DecidableEq

/-- A principal (`UserResponse`): role plus organizational scope; the empty
string models an unset scope field. -/
structure User where
  role : Role
  company_id : String
  department_id : String
deriving DecidableEq

/-- `build_org_filter`: the MongoDB filter derived from the principal,
modelled as the predicate a folder document must satisfy to match the
filtered query.  superadmin: no filter; admin: filters by `company_id`;
department_director/user: filter by `department_id`. -/
def build_org_filter (u : User) : Folder → Bool := fun f =>
  match u.role with
  | .superadmin => true
  | .admin => f.company_id == u.company_id
  | .department_director => f.department_id == u.department_id
  | .user => f.department_id == u.department_id

/-- `organization_service.get_holding_by_id`. -/
def get_holding_by_id (dir : OrgDirectory) (holding_id : String) :
    Option Holding :=
  dir.holdings.find? (fun h => h.id == holding_id)

/-- `organization_service.get_company_by_id`. -/
def get_company_by_id (dir : OrgDirectory) (company_id : String) :
    Option Company :=
  dir.companies.find? (fun c => c.id == company_id)

/-- `organization_service.get_department_by_id`. -/
def get_department_by_id (dir : OrgDirectory) (department_id : String) :
    Option Department :=
  dir.departments.find? (fun d => d.id == department_id)

/-- `organization_service.list_companies_by_holding`. -/
def list_companies_by_holding (dir : OrgDirectory) (holding_id : String) :
    List Company :=
  dir.companies.filter (fun c => c.holding_id == holding_id)

/-- `organization_service.list_departments_by_company`. -/
def list_departments_by_company (dir : OrgDirectory) (company_id : String) :
    List Department :=
  dir.departments.filter (fun d => d.company_id == company_id)

/-- Modelled from the spec: `holding_to_folder` (only its signature appears
in the inline code of the repository): id = encode(holding, h.id), parent = null,
context = (holdingId: h.id). -/
def holding_to_folder (h : Holding) : Folder :=
  { id := create_virtual_id h.id .holding
    name := h.name
    parentID := none
    fileIds := []
    foldersids := []
    company_id := ""
    department_id := ""
    holding_id := h.id }

/-- Modelled from the spec: `company_to_folder` (only its signature appears
in the inline code of the repository): id = encode(company, c.id), parent =
encode(holding, c.holding_id), context = (holdingId: c.holding_id,
companyId: c.id). -/
def company_to_folder (c : Company) : Folder :=
  { id := create_virtual_id c.id .company
    name := c.name
    parentID := some (create_virtual_id c.holding_id .holding)
    fileIds := []
    foldersids := []
    company_id := c.id
    department_id := ""
    holding_id := c.holding_id }

/-- `department_to_folder`: fetches the owning company to obtain the holding
id (empty when the lookup fails), parent = encode(company, d.company_id). -/
def department_to_folder (dir : OrgDirectory) (d : Department) : Folder :=
  let holding_id :=
    match get_company_by_id dir d.company_id with
    | some company => company.holding_id
    | none => ""
  { id := create_virtual_id d.id .department
    name := d.name
    parentID := some (create_virtual_id d.company_id .company)
    fileIds := []
    foldersids := []
    company_id := d.company_id
    department_id := d.id
    holding_id := holding_id }

/-- Modelled from the spec: `get_virtual_folder_by_id` (only its signature
appears in the inline code of the repository): decodes the kind and real id and
converts the backing organizational entity via the per-kind `*_to_folder`
conversion; none when the entity does not exist or the id is not virtual. -/
def get_virtual_folder_by_id (dir : OrgDirectory) (folder_id : String) :
    Option Folder :=
  match get_virtual_folder_type folder_id with
  | some .holding =>
      (get_holding_by_id dir (extract_real_id folder_id)).map holding_to_folder
  | some .company =>
      (get_company_by_id dir (extract_real_id folder_id)).map company_to_folder
  | some .department =>
      (get_department_by_id dir (extract_real_id folder_id)).map
        (department_to_folder dir)
  | none => none

/-- Lexicographic ascending sort on folder names, modelling the Mongo
`.sort("name", 1)` call. -/
def sortByName (l : List Folder) : List Folder :=
  l.mergeSort (fun a b => decide (a.name ≤ b.name))

/-- `get_virtual_subfolders`: children of a virtual node — companies of a
holding, departments of a company, and for a department the REAL top-level
folders (`parentID = None`) whose `department_id` matches, sorted by name. -/
def get_virtual_subfolders (dir : OrgDirectory) (store : FolderStore)
    (parent_id : String) : List Folder :=
  match get_virtual_folder_type parent_id with
  | some .holding =>
      (list_companies_by_holding dir (extract_real_id parent_id)).map
        company_to_folder
  | some .company =>
      (list_departments_by_company dir (extract_real_id parent_id)).map
        (department_to_folder dir)
  | some .department =>
      sortByName ((store : List Folder).filter
        (fun f => f.department_id == extract_real_id parent_id &&
          f.parentID == none))
  | none => []

/-- `get_folder_by_id`: virtual ids are resolved through
`get_virtual_folder_by_id` (no org filter); real ids are looked up in the
folders collection restricted by the org filter of the principal.  The
source wraps the real lookup key in `ObjectId(folder_id)`, which raises
InvalidId on a malformed id; this simpler form collapses that error path
into the `none` outcome and is used where only virtual ids or well-formed
real ids are exercised, while `get_folder_by_id_checked` below restores the
ObjectId validation. -/
def get_folder_by_id (dir : OrgDirectory) (store : FolderStore)
    (folder_id : String) (u : User) : Option Folder :=
  if is_virtual_folder folder_id then
    get_virtual_folder_by_id dir folder_id
  else
    (store : List Folder).find?
      (fun f => f.id == folder_id && build_org_filter u f)

/-- Modelled from the spec: `get_root_folders_for_user` (only its signature
appears in the inline code of the repository): superadmin → all holdings as
virtual nodes; admin → the departments of the company of the principal as
virtual nodes; department_director/user → empty (they navigate real
folders). -/
def get_root_folders_for_user (dir : OrgDirectory) (u : User) : List Folder :=
  match u.role with
  | .superadmin => dir.holdings.map holding_to_folder
  | .admin =>
      (list_departments_by_company dir u.company_id).map
        (department_to_folder dir)
  | .department_director => []
  | .user => []

/-- `get_root_folders`: returns the virtual roots when that list is
non-empty, otherwise falls through to the real top-level folders
(`parentID` null or absent) restricted by the org filter of the principal. -/
def get_root_folders (dir : OrgDirectory) (store : FolderStore) (u : User) :
    List Folder :=
  let virtual_folders := get_root_folders_for_user dir u
  if virtual_folders.isEmpty then
    (store : List Folder).filter
      (fun f => f.parentID == none && build_org_filter u f)
  else
    virtual_folders

/-- The organizational context resolved for a candidate parent at folder
creation time. -/
structure ParentContext where
  holding_id : String
  company_id : String
  department_id : String
  is_virtual_parent : Bool
deriving DecidableEq

/-- `resolve_parent_context` for a virtual parent id: the department branch
fetches the department then its company to obtain the holding id (empty when
the company lookup fails); the company and holding branches (elided as
`# ... handle companies and holdings` in the inline code of the repository) are
modelled from the spec: resolve the full lineage of the decoded entity;
none when the decoded entity no longer exists. -/
def resolve_parent_context (dir : OrgDirectory) (parent_id : String)
    (_u : User) : Option ParentContext :=
  if is_virtual_folder parent_id then
    match get_virtual_folder_type parent_id with
    | some .department =>
        match get_department_by_id dir (extract_real_id parent_id) with
        | some department =>
            let holding_id :=
              match get_company_by_id dir department.company_id with
              | some company => company.holding_id
              | none => ""
            some { holding_id := holding_id
                   company_id := department.company_id
                   department_id := extract_real_id parent_id
                   is_virtual_parent := true }
        | none => none
    | some .company =>
        match get_company_by_id dir (extract_real_id parent_id) with
        | some company =>
            some { holding_id := company.holding_id
                   company_id := company.id
                   department_id := ""
                   is_virtual_parent := true }
        | none => none
    | some .holding =>
        match get_holding_by_id dir (extract_real_id parent_id) with
        | some holding =>
            some { holding_id := holding.id
                   company_id := ""
                   department_id := ""
                   is_virtual_parent := true }
        | none => none
    | none => none
  else none

/-- `create_folder`: a virtual parent is resolved through
`resolve_parent_context`, the stored parent id becomes null and the org ids
come from the resolved context; a real parent is fetched through
`get_folder_by_id` and its org ids are inherited; no parent means an
unscoped top-level folder.  The store insert (elided as `# ... create folder
with org_ids` in the inline code of the repository) is modelled from the spec:
the new document, with a fresh id `newId`, is appended to the folders
collection.  none models the failure of the parent resolution. -/
def create_folder (dir : OrgDirectory) (store : FolderStore)
    (folderName : String) (parentID : Option String) (u : User)
    (newId : String) : Option (Folder × FolderStore) :=
  match parentID with
  | some pid =>
      if is_virtual_folder pid then
        match resolve_parent_context dir pid u with
        | some ctx =>
            let f : Folder :=
              { id := newId, name := folderName, parentID := none
                fileIds := [], foldersids := []
                company_id := ctx.company_id
                department_id := ctx.department_id
                holding_id := ctx.holding_id }
            some (f, ((store : List Folder) ++ [f] : List Folder))
        | none => none
      else
        match get_folder_by_id dir store pid u with
        | some parent_folder =>
            let f : Folder :=
              { id := newId, name := folderName, parentID := some pid
                fileIds := [], foldersids := []
                company_id := parent_folder.company_id
                department_id := parent_folder.department_id
                holding_id := parent_folder.holding_id }
            some (f, ((store : List Folder) ++ [f] : List Folder))
        | none => none
  | none =>
      let f : Folder :=
        { id := newId, name := folderName, parentID := none
          fileIds := [], foldersids := []
          company_id := "", department_id := "", holding_id := "" }
      some (f, ((store : List Folder) ++ [f] : List Folder))

/-- The error outcomes surfaced by the folder routes; `invalidId` models
the `bson.errors.InvalidId` exception raised by `ObjectId(folder_id)` on a
malformed id (surfaced as a generic server error, not as NotFound). -/
inductive ApiError where
  | invalidOperation (detail : String)
  | notFound
  | invalidId
deriving DecidableEq

/-- A hexadecimal digit, as accepted by `ObjectId`. -/
def is_hex_char (c : Char) : Bool :=
  c.isDigit || ('a' ≤ c && c ≤ 'f') || ('A' ≤ c && c ≤ 'F')

/-- Validity of `ObjectId(folder_id)`: `bson.ObjectId` accepts exactly a
24-character hexadecimal string (the 12-byte form cannot arise from a URL
path parameter); on anything else it raises InvalidId. -/
def is_valid_object_id (s : String) : Bool :=
  s.data.length == 24 && s.data.all is_hex_char

/-- `get_folder_by_id` with the `ObjectId(folder_id)` wrapper of the source
restored (same dispatch, same virtual branch, same filtered real lookup as
`get_folder_by_id` above): on the real branch the id is first converted
with `ObjectId`, so a malformed id fails with `invalidId` before any store
query; a missing document is `notFound`. -/
def get_folder_by_id_checked (dir : OrgDirectory) (store : FolderStore)
    (folder_id : String) (u : User) : Except ApiError Folder :=
  if is_virtual_folder folder_id then
    match get_virtual_folder_by_id dir folder_id with
    | some f => Except.ok f
    | none => Except.error .notFound
  else if is_valid_object_id folder_id then
    match (store : List Folder).find?
        (fun f => f.id == folder_id && build_org_filter u f) with
    | some f => Except.ok f
    | none => Except.error .notFound
  else Except.error .invalidId

/-- Decidable equality on `Except`, so that concrete route outcomes can be
evaluated by `decide`. -/
instance exceptDecEq {e a : Type} [DecidableEq e] [DecidableEq a] :
    DecidableEq (Except e a) := fun x y =>
  match x, y with
  | .error e1, .error e2 =>
      if h : e1 = e2 then .isTrue (by rw [h])
      else .isFalse (fun hh => h (Except.error.inj hh))
  | .ok a1, .ok a2 =>
      if h : a1 = a2 then .isTrue (by rw [h])
      else .isFalse (fun hh => h (Except.ok.inj hh))
  | .error _, .ok _ => .isFalse (fun hh => Except.noConfusion hh)
  | .ok _, .error _ => .isFalse (fun hh => Except.noConfusion hh)

/-- `rename_folder` route: a virtual id is rejected up-front with the 400
InvalidOperation detail `Cannot rename organizational folders` and nothing
is written; otherwise the service renames the matching stored folder
(real-branch write modelled from the spec, the route body only shows the
guard). -/
def rename_folder (dir : OrgDirectory) (store : FolderStore)
    (folder_id newName : String) (u : User) :
    Except ApiError Folder × FolderStore :=
  if is_virtual_folder folder_id then
    (Except.error (.invalidOperation "Cannot rename organizational folders"),
     store)
  else
    match get_folder_by_id dir store folder_id u with
    | some f =>
        (Except.ok { f with name := newName },
         ((store : List Folder).map
            (fun g => if g.id == folder_id then { g with name := newName }
              else g) : List Folder))
    | none => (Except.error .notFound, store)

/-- `delete_folder` route: a virtual id is rejected up-front with the 400
InvalidOperation detail `Cannot delete organizational folders` and nothing
is written; otherwise the service removes the matching stored folder
(real-branch write modelled from the spec, the route body only shows the
guard). -/
def delete_folder (dir : OrgDirectory) (store : FolderStore)
    (folder_id : String) (u : User) :
    Except ApiError Unit × FolderStore :=
  if is_virtual_folder folder_id then
    (Except.error (.invalidOperation "Cannot delete organizational folders"),
     store)
  else
    match get_folder_by_id dir store folder_id u with
    | some _ =>
        (Except.ok (),
         ((store : List Folder).filter (fun g => !(g.id == folder_id)) :
           List Folder))
    | none => (Except.error .notFound, store)

/-- Modelled from the spec: the `move_folder` route (its body does not
appear in the inline code of the repository; the spec and the frontend
`VirtualFolderUtils.canMove` guard require move on a virtual id to be
rejected as an InvalidOperation with its own human-readable detail, with no
write); otherwise the parent id of the stored folder is updated. -/
def move_folder (dir : OrgDirectory) (store : FolderStore)
    (folder_id : String) (new_parent_id : Option String) (u : User) :
    Except ApiError Folder × FolderStore :=
  if is_virtual_folder folder_id then
    (Except.error (.invalidOperation "Cannot move organizational folders"),
     store)
  else
    match get_folder_by_id dir store folder_id u with
    | some f =>
        (Except.ok { f with parentID := new_parent_id },
         ((store : List Folder).map
            (fun g => if g.id == folder_id then
              { g with parentID := new_parent_id } else g) : List Folder))
    | none => (Except.error .notFound, store)

/-- The `while current_id:` loop of `get_folder_path`, walking the real
parent chain upward and prepending each folder.  The source loop has no
visited set and no depth bound; `fuel` only makes the iteration a total
Lean function: `none` means the fuel ran out with the source loop still
running, i.e. the loop has not terminated within `fuel` iterations. -/
def get_folder_path_loop (dir : OrgDirectory) (store : FolderStore)
    (u : User) : Nat → Option String → List Folder → Option (List Folder)
  | _, none, path => some path
  | 0, some _, _ => none
  | Nat.succ n, some current_id, path =>
      match get_folder_by_id dir store current_id u with
      | none => some path
      | some folder =>
          get_folder_path_loop dir store u n folder.parentID (folder :: path)

/-- `get_folder_path`: walks the real parent chain, then, when the root-most
folder of the chain has a null parent id, synthesizes the virtual
holding/company/department nodes from the organizational context of that folder
(with the company-lookup fallback for an empty holding id) and prepends
them.  `none` propagates fuel exhaustion of the unguarded loop. -/
def get_folder_path (dir : OrgDirectory) (store : FolderStore)
    (folder_id : String) (u : User) (fuel : Nat) : Option (List Folder) :=
  match get_folder_path_loop dir store u fuel (some folder_id) [] with
  | none => none
  | some path =>
      match path with
      | [] => some []
      | first_folder :: _ =>
          if first_folder.parentID = none then
            let holding_id :=
              if first_folder.holding_id = "" ∧ ¬ first_folder.company_id = ""
              then
                match get_company_by_id dir first_folder.company_id with
                | some company => company.holding_id
                | none => first_folder.holding_id
              else first_folder.holding_id
            let dept_part :=
              if first_folder.department_id = "" then []
              else
                match get_virtual_folder_by_id dir
                  ("department:" ++ first_folder.department_id) with
                | some df => [df]
                | none => []
            let company_part :=
              if first_folder.company_id = "" then []
              else
                match get_virtual_folder_by_id dir
                  ("company:" ++ first_folder.company_id) with
                | some cf => [cf]
                | none => []
            let holding_part :=
              if holding_id = "" then []
              else
                match get_virtual_folder_by_id dir
                  ("holding:" ++ holding_id) with
                | some hf => [hf]
                | none => []
            some (holding_part ++ company_part ++ dept_part ++ path)
          else some path

/-! ### Codec lemmas -/

theorem strStartsWith_append (p r : String) :
    strStartsWith (p ++ r) p = true := by
  simp [strStartsWith, String.data_append, List.isPrefixOf_iff_prefix]

theorem get_virtual_folder_type_encode (realId : String) (kind : Kind) :
    get_virtual_folder_type (create_virtual_id realId kind) = some kind := by
  cases kind <;>
    simp_all [get_virtual_folder_type, create_virtual_id, kindCode,
      strStartsWith, String.data_append, List.isPrefixOf_iff_prefix,
      List.cons_prefix_cons]

theorem is_virtual_folder_encode (realId : String) (kind : Kind) :
    is_virtual_folder (create_virtual_id realId kind) = true := by
  cases kind <;>
    simp [is_virtual_folder, create_virtual_id, kindCode, strStartsWith,
      String.data_append, List.isPrefixOf_iff_prefix]

theorem extract_real_id_encode (realId : String) (kind : Kind) :
    extract_real_id (create_virtual_id realId kind) = realId := by
  simp only [extract_real_id, get_virtual_folder_type_encode]
  simp only [create_virtual_id, String.data_append, List.drop_left]

theorem create_virtual_id_ne (a b : String) {k k' : Kind} (hkk : k ≠ k') :
    create_virtual_id a k ≠ create_virtual_id b k' := by
  intro heq
  have hd := congrArg String.data heq
  cases k <;> cases k' <;> try exact hkk rfl
  all_goals
    simp only [create_virtual_id, kindCode, String.data_append] at hd
  all_goals simp at hd

theorem create_virtual_id_ne_real (a : String) (k : Kind) {x : String}
    (hx : is_virtual_folder x = false) : create_virtual_id a k ≠ x := by
  intro heq
  have := is_virtual_folder_encode a k
  rw [heq, hx] at this
  exact Bool.false_ne_true this

theorem get_virtual_folder_by_id_holding (dir : OrgDirectory) (hid : String)
    (h : Holding) (hh : get_holding_by_id dir hid = some h) :
    get_virtual_folder_by_id dir (create_virtual_id hid .holding) =
      some (holding_to_folder h) := by
  simp only [get_virtual_folder_by_id, get_virtual_folder_type_encode,
    extract_real_id_encode, hh]
  rfl

theorem get_virtual_folder_by_id_company (dir : OrgDirectory) (cid : String)
    (c : Company) (hc : get_company_by_id dir cid = some c) :
    get_virtual_folder_by_id dir (create_virtual_id cid .company) =
      some (company_to_folder c) := by
  simp only [get_virtual_folder_by_id, get_virtual_folder_type_encode,
    extract_real_id_encode, hc]
  rfl

theorem get_virtual_folder_by_id_department (dir : OrgDirectory)
    (did : String) (d : Department)
    (hd : get_department_by_id dir did = some d) :
    get_virtual_folder_by_id dir (create_virtual_id did .department) =
      some (department_to_folder dir d) := by
  simp only [get_virtual_folder_by_id, get_virtual_folder_type_encode,
    extract_real_id_encode, hd]
  rfl

/-- C5: for every kind in `{holding, company, department}` and every realId,
`decode (encode kind realId) = realId` and `isVirtual (encode kind realId) =
true`; and every plain id that does not start with one of the three reserved
kind markers has `isVirtual = false`. -/
theorem codec_roundtrip_and_classification :
    (∀ (kind : Kind) (realId : String),
      extract_real_id (create_virtual_id realId kind) = realId ∧
      is_virtual_folder (create_virtual_id realId kind) = true) ∧
    (∀ plainId : String,
      strStartsWith plainId "holding:" = false →
      strStartsWith plainId "company:" = false →
      strStartsWith plainId "department:" = false →
      is_virtual_folder plainId = false) := by
  refine ⟨fun kind realId => ⟨extract_real_id_encode realId kind,
    is_virtual_folder_encode realId kind⟩, fun plainId h1 h2 h3 => ?_⟩
  simp [is_virtual_folder, h1, h2, h3]

/-- C5 witness: concrete evaluation at kind `department`, realId `"abc123"`,
plain id `"abc123"`. -/
theorem codec_roundtrip_and_classification_witness :
    extract_real_id (create_virtual_id "abc123" Kind.department) = "abc123" ∧
    is_virtual_folder (create_virtual_id "abc123" Kind.department) = true ∧
    is_virtual_folder "abc123" = false :=
  ⟨(codec_roundtrip_and_classification.1 Kind.department "abc123").1,
   (codec_roundtrip_and_classification.1 Kind.department "abc123").2,
   codec_roundtrip_and_classification.2 "abc123"
     (by decide) (by decide) (by decide)⟩


/-- C9: departmentToNode includes the holding id of the owning
company of the department when the company lookup succeeds; when the lookup fails the
conversion still succeeds (it is total) and returns a node whose context
holding id is the empty string. -/
theorem department_node_holding_context (dir : OrgDirectory)
    (d : Department) :
    (∀ c : Company, get_company_by_id dir d.company_id = some c →
      (department_to_folder dir d).holding_id = c.holding_id) ∧
    (get_company_by_id dir d.company_id = none →
      (department_to_folder dir d).holding_id = "") ∧
    (department_to_folder dir d).id = create_virtual_id d.id .department ∧
    (department_to_folder dir d).department_id = d.id ∧
    (department_to_folder dir d).company_id = d.company_id := by
  refine ⟨fun c hc => ?_, fun hn => ?_, rfl, rfl, rfl⟩
  · simp [department_to_folder, hc]
  · simp [department_to_folder, hn]

/-- C9 witness: a department whose owning company is absent from the
directory still converts, with an empty holding id. -/
theorem department_node_holding_context_witness :
    get_company_by_id (OrgDirectory.mk [] [] []) "c1" = none ∧
    (department_to_folder (OrgDirectory.mk [] [] [])
      (Department.mk "d1" "D1" "c1")).holding_id = "" :=
  ⟨by decide,
   (department_node_holding_context (OrgDirectory.mk [] [] [])
     (Department.mk "d1" "D1" "c1")).2.1 (by decide)⟩

/-- C2: creating a folder under the virtual parent encode(department, D.id)
stores a real folder with parent id null, department id D.id, company id
D.company_id, and holding id H.id, the holding id of the owning company of D. -/
theorem create_folder_under_department (dir : OrgDirectory)
    (store : FolderStore) (u : User) (D : Department) (C : Company)
    (H : Holding) (folderName newId : String)
    (hD : get_department_by_id dir D.id = some D)
    (hC : get_company_by_id dir D.company_id = some C)
    (hCH : C.holding_id = H.id) :
    ∃ f : Folder,
      create_folder dir store folderName
        (some (create_virtual_id D.id .department)) u newId =
          some (f, store ++ [f]) ∧
      f.parentID = none ∧
      f.department_id = D.id ∧
      f.company_id = D.company_id ∧
      f.holding_id = H.id := by
  refine ⟨Folder.mk newId folderName none [] [] D.company_id D.id
    C.holding_id, ?_, rfl, rfl, rfl, hCH⟩
  simp only [create_folder, is_virtual_folder_encode, if_true,
    resolve_parent_context, get_virtual_folder_type_encode,
    extract_real_id_encode, hD, hC]

/-- C2 witness: concrete one-holding, one-company, one-department directory;
the created folder carries the full organizational context. -/
theorem create_folder_under_department_witness :
    get_department_by_id
      (OrgDirectory.mk [Holding.mk "h1" "H1"]
        [Company.mk "c1" "C1" "h1"] [Department.mk "d1" "D1" "c1"]) "d1" =
      some (Department.mk "d1" "D1" "c1") ∧
    (Company.mk "c1" "C1" "h1").holding_id = (Holding.mk "h1" "H1").id ∧
    ∃ f : Folder,
      create_folder
        (OrgDirectory.mk [Holding.mk "h1" "H1"]
          [Company.mk "c1" "C1" "h1"] [Department.mk "d1" "D1" "c1"])
        [] "F1" (some (create_virtual_id "d1" .department))
        (User.mk .superadmin "" "") "f1" = some (f, [] ++ [f]) ∧
      f.parentID = none ∧
      f.department_id = "d1" ∧
      f.company_id = "c1" ∧
      f.holding_id = "h1" :=
  ⟨by decide, by decide,
   create_folder_under_department
     (OrgDirectory.mk [Holding.mk "h1" "H1"] [Company.mk "c1" "C1" "h1"]
       [Department.mk "d1" "D1" "c1"])
     [] (User.mk .superadmin "" "") (Department.mk "d1" "D1" "c1")
     (Company.mk "c1" "C1" "h1") (Holding.mk "h1" "H1") "F1" "f1"
     (by decide) (by decide) (by decide)⟩

/-- C4: the children of the virtual node encode(department, D) are exactly
the stored real folders with null parent id and matching department id,
ordered ascending by name; a stored folder with a non-null parent id never
appears, even when its department id matches. -/
theorem virtual_department_children (dir : OrgDirectory)
    (store : FolderStore) (did : String) :
    (∀ f : Folder,
      f ∈ get_virtual_subfolders dir store (create_virtual_id did .department)
        ↔ (f ∈ store ∧ f.parentID = none ∧ f.department_id = did)) ∧
    List.Pairwise (fun a b : Folder => a.name ≤ b.name)
      (get_virtual_subfolders dir store (create_virtual_id did .department)) ∧
    (∀ f : Folder, f ∈ store → f.parentID ≠ none →
      f ∉ get_virtual_subfolders dir store
        (create_virtual_id did .department)) := by
  have hunfold : get_virtual_subfolders dir store
      (create_virtual_id did .department) =
      sortByName (store.filter
        (fun f => f.department_id == extract_real_id
          (create_virtual_id did .department) && f.parentID == none)) := by
    simp only [get_virtual_subfolders, get_virtual_folder_type_encode]
  have hmem : ∀ f : Folder,
      f ∈ get_virtual_subfolders dir store (create_virtual_id did .department)
        ↔ (f ∈ store ∧ f.parentID = none ∧ f.department_id = did) := by
    intro f
    rw [hunfold, sortByName, List.mem_mergeSort, List.mem_filter,
      extract_real_id_encode]
    simp only [Bool.and_eq_true, beq_iff_eq]
    tauto
  refine ⟨hmem, ?_, fun f _ hfp hmem2 => hfp ((hmem f).mp hmem2).2.1⟩
  rw [hunfold, sortByName]
  refine List.Pairwise.imp (fun hab => of_decide_eq_true hab)
    (List.sorted_mergeSort ?_ ?_
      (store.filter
        (fun f => f.department_id == extract_real_id
          (create_virtual_id did .department) && f.parentID == none)))
  · exact fun a b c hab hbc =>
      decide_eq_true (le_trans (of_decide_eq_true hab) (of_decide_eq_true hbc))
  · intro a b
    simp only [Bool.or_eq_true, decide_eq_true_eq]
    exact le_total a.name b.name

/-- C4 witness: with one matching top-level folder and one nested folder in
the store, the matching folder is listed and the nested one is excluded. -/
theorem virtual_department_children_witness :
    (Folder.mk "f1" "F1" none [] [] "c1" "d1" "h1") ∈
      get_virtual_subfolders (OrgDirectory.mk [] [] [])
        [Folder.mk "f1" "F1" none [] [] "c1" "d1" "h1",
         Folder.mk "f2" "F2" (some "f1") [] [] "c1" "d1" "h1"]
        (create_virtual_id "d1" .department) ∧
    (Folder.mk "f2" "F2" (some "f1") [] [] "c1" "d1" "h1") ∉
      get_virtual_subfolders (OrgDirectory.mk [] [] [])
        [Folder.mk "f1" "F1" none [] [] "c1" "d1" "h1",
         Folder.mk "f2" "F2" (some "f1") [] [] "c1" "d1" "h1"]
        (create_virtual_id "d1" .department) :=
  ⟨((virtual_department_children (OrgDirectory.mk [] [] [])
      [Folder.mk "f1" "F1" none [] [] "c1" "d1" "h1",
       Folder.mk "f2" "F2" (some "f1") [] [] "c1" "d1" "h1"] "d1").1
      (Folder.mk "f1" "F1" none [] [] "c1" "d1" "h1")).mpr
      ⟨by decide, by decide, by decide⟩,
   (virtual_department_children (OrgDirectory.mk [] [] [])
      [Folder.mk "f1" "F1" none [] [] "c1" "d1" "h1",
       Folder.mk "f2" "F2" (some "f1") [] [] "c1" "d1" "h1"] "d1").2.2
      (Folder.mk "f2" "F2" (some "f1") [] [] "c1" "d1" "h1")
      (by decide) (by decide)⟩


/-- C8: rename, delete and move invoked with any virtual id (any id carrying
a recognized kind marker) each fail with their own distinct InvalidOperation
detail and return the folder store unchanged. -/
theorem mutations_reject_virtual_id (dir : OrgDirectory)
    (store : FolderStore) (folder_id newName : String)
    (new_parent_id : Option String) (u : User)
    (h : is_virtual_folder folder_id = true) :
    rename_folder dir store folder_id newName u =
      (Except.error
        (.invalidOperation "Cannot rename organizational folders"), store) ∧
    delete_folder dir store folder_id u =
      (Except.error
        (.invalidOperation "Cannot delete organizational folders"), store) ∧
    move_folder dir store folder_id new_parent_id u =
      (Except.error
        (.invalidOperation "Cannot move organizational folders"), store) ∧
    ("Cannot rename organizational folders" ≠
        "Cannot delete organizational folders" ∧
      "Cannot rename organizational folders" ≠
        "Cannot move organizational folders" ∧
      "Cannot delete organizational folders" ≠
        "Cannot move organizational folders") := by
  refine ⟨?_, ?_, ?_, by decide, by decide, by decide⟩ <;>
    simp [rename_folder, delete_folder, move_folder, h]

/-- C8 witness: the three mutations at the concrete virtual id
`company:c1` over a one-folder store. -/
theorem mutations_reject_virtual_id_witness :
    rename_folder (OrgDirectory.mk [] [] [])
      [Folder.mk "f1" "F1" none [] [] "c1" "d1" "h1"]
      "company:c1" "newName" (User.mk .superadmin "" "") =
      (Except.error
        (.invalidOperation "Cannot rename organizational folders"),
       [Folder.mk "f1" "F1" none [] [] "c1" "d1" "h1"]) ∧
    delete_folder (OrgDirectory.mk [] [] [])
      [Folder.mk "f1" "F1" none [] [] "c1" "d1" "h1"]
      "company:c1" (User.mk .superadmin "" "") =
      (Except.error
        (.invalidOperation "Cannot delete organizational folders"),
       [Folder.mk "f1" "F1" none [] [] "c1" "d1" "h1"]) ∧
    move_folder (OrgDirectory.mk [] [] [])
      [Folder.mk "f1" "F1" none [] [] "c1" "d1" "h1"]
      "company:c1" none (User.mk .superadmin "" "") =
      (Except.error
        (.invalidOperation "Cannot move organizational folders"),
       [Folder.mk "f1" "F1" none [] [] "c1" "d1" "h1"]) := by
  have h := mutations_reject_virtual_id (OrgDirectory.mk [] [] [])
    [Folder.mk "f1" "F1" none [] [] "c1" "d1" "h1"]
    "company:c1" "newName" none (User.mk .superadmin "" "") (by decide)
  exact ⟨h.1, h.2.1, h.2.2.1⟩

/-- C10: get_folder_by_id consults the org filter of the principal only on real
ids — the virtual branch is identical for any two principals, and any
principal resolves any existing holding, company or department node by its
encoded id — while a real folder is returned only when it passes the
org filter of the principal. -/
theorem org_filter_applies_only_to_real_ids (dir : OrgDirectory)
    (store : FolderStore) :
    (∀ (folder_id : String) (u1 u2 : User),
      is_virtual_folder folder_id = true →
      get_folder_by_id dir store folder_id u1 =
        get_folder_by_id dir store folder_id u2) ∧
    (∀ (folder_id : String) (u : User) (f : Folder),
      is_virtual_folder folder_id = false →
      get_folder_by_id dir store folder_id u = some f →
      f ∈ store ∧ f.id = folder_id ∧ build_org_filter u f = true) ∧
    (∀ (hid : String) (h : Holding) (u : User),
      get_holding_by_id dir hid = some h →
      get_folder_by_id dir store (create_virtual_id hid .holding) u =
        some (holding_to_folder h)) ∧
    (∀ (cid : String) (c : Company) (u : User),
      get_company_by_id dir cid = some c →
      get_folder_by_id dir store (create_virtual_id cid .company) u =
        some (company_to_folder c)) ∧
    (∀ (did : String) (d : Department) (u : User),
      get_department_by_id dir did = some d →
      get_folder_by_id dir store (create_virtual_id did .department) u =
        some (department_to_folder dir d)) := by
  refine ⟨fun folder_id u1 u2 hv => ?_, fun folder_id u f hr hsome => ?_,
    fun hid h u hh => ?_, fun cid c u hc => ?_, fun did d u hd => ?_⟩
  · simp [get_folder_by_id, hv]
  · rw [get_folder_by_id, hr] at hsome
    simp only [Bool.false_eq_true, if_false] at hsome
    have hmem := List.mem_of_find?_eq_some hsome
    have hp := List.find?_some hsome
    simp only [Bool.and_eq_true, beq_iff_eq] at hp
    exact ⟨hmem, hp.1, hp.2⟩
  · rw [get_folder_by_id, is_virtual_folder_encode, if_pos rfl]
    exact get_virtual_folder_by_id_holding dir hid h hh
  · rw [get_folder_by_id, is_virtual_folder_encode, if_pos rfl]
    exact get_virtual_folder_by_id_company dir cid c hc
  · rw [get_folder_by_id, is_virtual_folder_encode, if_pos rfl]
    exact get_virtual_folder_by_id_department dir did d hd

/-- C10 witness: a department-scoped principal of an unrelated department
resolves a holding virtual node, and the virtual lookup agrees between that
principal and a superadmin. -/
theorem org_filter_applies_only_to_real_ids_witness :
    get_folder_by_id
      (OrgDirectory.mk [Holding.mk "h1" "H1"] [] []) []
      (create_virtual_id "h1" .holding)
      (User.mk .user "cOther" "dOther") =
      some (holding_to_folder (Holding.mk "h1" "H1")) ∧
    get_folder_by_id
      (OrgDirectory.mk [Holding.mk "h1" "H1"] [] []) []
      "holding:h1" (User.mk .user "cOther" "dOther") =
      get_folder_by_id
        (OrgDirectory.mk [Holding.mk "h1" "H1"] [] []) []
        "holding:h1" (User.mk .superadmin "" "") :=
  ⟨(org_filter_applies_only_to_real_ids
      (OrgDirectory.mk [Holding.mk "h1" "H1"] [] []) []).2.2.1
      "h1" (Holding.mk "h1" "H1") (User.mk .user "cOther" "dOther")
      (by decide),
   (org_filter_applies_only_to_real_ids
      (OrgDirectory.mk [Holding.mk "h1" "H1"] [] []) []).1
      "holding:h1" (User.mk .user "cOther" "dOther")
      (User.mk .superadmin "" "") (by decide)⟩

theorem object_id_invalid_of_separator (s : String)
    (h : ':' ∈ s.data) : is_valid_object_id s = false := by
  rw [Bool.eq_false_iff]
  intro hall
  simp only [is_valid_object_id, Bool.and_eq_true, List.all_eq_true] at hall
  exact absurd (hall.2 ':' h) (by decide)

theorem get_folder_by_id_checked_agrees (dir : OrgDirectory)
    (store : FolderStore) (folder_id : String) (u : User)
    (h : is_virtual_folder folder_id = true ∨
      is_valid_object_id folder_id = true) (f : Folder) :
    get_folder_by_id_checked dir store folder_id u = Except.ok f ↔
      get_folder_by_id dir store folder_id u = some f := by
  rcases h with hv | ho
  · simp only [get_folder_by_id_checked, get_folder_by_id, hv, if_true]
    cases hg : get_virtual_folder_by_id dir folder_id <;> simp [hg]
  · cases hv : is_virtual_folder folder_id
    · simp only [get_folder_by_id_checked, get_folder_by_id, hv,
        Bool.false_eq_true, if_false, ho, if_true]
      cases hg : (store : List Folder).find?
          (fun g => g.id == folder_id && build_org_filter u g) <;> simp [hg]
    · simp only [get_folder_by_id_checked, get_folder_by_id, hv, if_true]
      cases hg : get_virtual_folder_by_id dir folder_id <;> simp [hg]

/-- C7 counterexample: the malformed virtual id `team:x` (unrecognized
prefix followed by the separator) is not rejected as NotFound — it is not
recognized as virtual, is dispatched to the real-folder branch, and there
the ObjectId conversion fails, so resolution raises InvalidId instead of
returning NotFound. -/
theorem malformed_id_raises_invalid_id :
    is_virtual_folder "team:x" = false ∧
    is_valid_object_id "team:x" = false ∧
    get_folder_by_id_checked (OrgDirectory.mk [] [] []) [] "team:x"
      (User.mk .superadmin "" "") = Except.error .invalidId ∧
    get_folder_by_id_checked (OrgDirectory.mk [] [] []) [] "team:x"
      (User.mk .superadmin "" "") ≠ Except.error .notFound := by decide

/-- C7 (amended): only ids starting with one of the three recognized kind
markers are handled as virtual (and a virtual id never produces InvalidId);
every other id is dispatched to the real-folder branch, where the ObjectId
conversion runs first: a malformed id — in particular any id containing the
separator, such as an unrecognized prefix followed by `:` — fails with an
InvalidId error rather than with NotFound, and only non-virtual ids that
parse as valid ObjectIds are looked up (org-filtered) in the folder
store. -/
theorem id_dispatch_and_malformed_failure (dir : OrgDirectory)
    (store : FolderStore) :
    (∀ (folder_id : String) (u : User),
      is_virtual_folder folder_id = true →
      (∀ f : Folder,
        get_folder_by_id_checked dir store folder_id u = Except.ok f →
        get_virtual_folder_by_id dir folder_id = some f) ∧
      get_folder_by_id_checked dir store folder_id u ≠
        Except.error .invalidId) ∧
    (∀ (folder_id : String) (u : User),
      is_virtual_folder folder_id = false →
      is_valid_object_id folder_id = false →
      get_folder_by_id_checked dir store folder_id u =
        Except.error .invalidId) ∧
    (∀ (folder_id : String) (u : User),
      is_virtual_folder folder_id = false →
      ':' ∈ folder_id.data →
      get_folder_by_id_checked dir store folder_id u =
        Except.error .invalidId) ∧
    (∀ (folder_id : String) (u : User) (f : Folder),
      is_virtual_folder folder_id = false →
      is_valid_object_id folder_id = true →
      get_folder_by_id_checked dir store folder_id u = Except.ok f →
      f ∈ store ∧ f.id = folder_id) := by
  have hbad : ∀ (folder_id : String) (u : User),
      is_virtual_folder folder_id = false →
      is_valid_object_id folder_id = false →
      get_folder_by_id_checked dir store folder_id u =
        Except.error .invalidId := by
    intro folder_id u hr ho
    simp [get_folder_by_id_checked, hr, ho]
  refine ⟨fun folder_id u hv => ⟨fun f hok => ?_, ?_⟩, hbad,
    fun folder_id u hr hsep =>
      hbad folder_id u hr (object_id_invalid_of_separator folder_id hsep),
    fun folder_id u f hr ho hok => ?_⟩
  · simp only [get_folder_by_id_checked, hv, if_true] at hok
    cases hg : get_virtual_folder_by_id dir folder_id <;> rw [hg] at hok
    · exact absurd hok (by simp)
    · simp only [Except.ok.injEq] at hok
      exact congrArg some hok
  · simp only [get_folder_by_id_checked, hv, if_true]
    cases hg : get_virtual_folder_by_id dir folder_id <;> simp [hg]
  · have hok2 := (get_folder_by_id_checked_agrees dir store folder_id u
      (Or.inr ho) f).mp hok
    rw [get_folder_by_id, hr] at hok2
    simp only [Bool.false_eq_true, if_false] at hok2
    have hp := List.find?_some hok2
    simp only [Bool.and_eq_true, beq_iff_eq] at hp
    exact ⟨List.mem_of_find?_eq_some hok2, hp.1⟩

/-- C7 witness: a second malformed id, `unknown:entity`, fails with
InvalidId through the real branch. -/
theorem id_dispatch_and_malformed_failure_witness :
    get_folder_by_id_checked (OrgDirectory.mk [] [] []) [] "unknown:entity"
      (User.mk .superadmin "" "") = Except.error .invalidId :=
  (id_dispatch_and_malformed_failure (OrgDirectory.mk [] [] []) []).2.1
    "unknown:entity" (User.mk .superadmin "" "") (by decide) (by decide)

/-- C3 (code bug evaluation): a global-role (superadmin) principal whose
holding collection is legitimately empty does NOT receive the empty virtual
holding list — `get_root_folders` falls through the empty-list check and
returns real top-level folders instead, so the choice is made by list
emptiness, not by role alone. -/
theorem root_resolution_falls_back_on_empty_virtual_list :
    get_root_folders_for_user
      (OrgDirectory.mk [] [Company.mk "c1" "C1" "h1"]
        [Department.mk "d1" "D1" "c1"])
      (User.mk .superadmin "" "") = [] ∧
    get_root_folders
      (OrgDirectory.mk [] [Company.mk "c1" "C1" "h1"]
        [Department.mk "d1" "D1" "c1"])
      [Folder.mk "g1" "G1" none [] [] "c1" "d1" "h1"]
      (User.mk .superadmin "" "") =
      [Folder.mk "g1" "G1" none [] [] "c1" "d1" "h1"] := by decide

/-- A two-folder store whose parent-id links form a cycle: `a` points to `b`
and `b` points back to `a`.  Storage does not structurally prevent this. -/
def cycleStore : FolderStore :=
  [Folder.mk "a" "A" (some "b") [] [] "c1" "d1" "h1",
   Folder.mk "b" "B" (some "a") [] [] "c1" "d1" "h1"]

/-- An empty organization directory for the cycle scenario. -/
def cycleDir : OrgDirectory := OrgDirectory.mk [] [] []

/-- The superadmin principal used in the cycle scenario. -/
def cycleUser : User := User.mk .superadmin "" ""

theorem cycle_loop_never_halts : ∀ (n : Nat) (path : List Folder),
    get_folder_path_loop cycleDir cycleStore cycleUser n (some "a") path =
      none ∧
    get_folder_path_loop cycleDir cycleStore cycleUser n (some "b") path =
      none := by
  intro n
  induction n with
  | zero => intro path; exact ⟨rfl, rfl⟩
  | succ n ih =>
      intro path
      have ha : get_folder_by_id cycleDir cycleStore "a" cycleUser =
          some (Folder.mk "a" "A" (some "b") [] [] "c1" "d1" "h1") := by
        decide
      have hb : get_folder_by_id cycleDir cycleStore "b" cycleUser =
          some (Folder.mk "b" "B" (some "a") [] [] "c1" "d1" "h1") := by
        decide
      constructor
      · simp only [get_folder_path_loop, ha]
        exact (ih _).2
      · simp only [get_folder_path_loop, hb]
        exact (ih _).1

/-- C6 (code bug evaluation): the real-parent-chain walk of
`get_folder_path` has neither a visited-id set nor a depth bound; on a store
whose parent-id links form a cycle the loop never reaches either of its exit
conditions, so for every iteration budget the walk is still running and
`get-path` never returns a list. -/
theorem get_folder_path_diverges_on_cycle :
    ∀ fuel : Nat,
      get_folder_path cycleDir cycleStore "a" cycleUser fuel = none := by
  intro fuel
  have h := (cycle_loop_never_halts fuel []).1
  simp [get_folder_path, h]


/-- C1: for a department D owned by company C owned by holding H, get-path
of a real folder F created directly under D (null parent id, context fully
populated from the lineage of D) returns exactly the ordered breadcrumb
[H-node, C-node, D-node, F] — the virtual prefix ordered holding, company,
department, followed by the real chain — and the returned list contains no
duplicate ids. -/
theorem folder_path_under_department (dir : OrgDirectory)
    (store : FolderStore) (u : User) (H : Holding) (C : Company)
    (D : Department) (F : Folder)
    (hH : get_holding_by_id dir H.id = some H)
    (hC : get_company_by_id dir C.id = some C)
    (hD : get_department_by_id dir D.id = some D)
    (hF : get_folder_by_id dir store F.id u = some F)
    (hFp : F.parentID = none)
    (hFd : F.department_id = D.id)
    (hFc : F.company_id = C.id)
    (hFh : F.holding_id = H.id)
    (hHne : H.id ≠ "")
    (hCne : C.id ≠ "")
    (hDne : D.id ≠ "")
    (hFreal : is_virtual_folder F.id = false)
    (n : Nat) :
    get_folder_path dir store F.id u (n + 1) =
      some [holding_to_folder H, company_to_folder C,
        department_to_folder dir D, F] ∧
    (List.map Folder.id [holding_to_folder H, company_to_folder C,
      department_to_folder dir D, F]).Nodup := by
  have hloop : get_folder_path_loop dir store u (n + 1) (some F.id) [] =
      some [F] := by
    simp only [get_folder_path_loop, hF, hFp]
  have hdep : get_virtual_folder_by_id dir ("department:" ++ D.id) =
      some (department_to_folder dir D) :=
    get_virtual_folder_by_id_department dir D.id D hD
  have hcomp : get_virtual_folder_by_id dir ("company:" ++ C.id) =
      some (company_to_folder C) :=
    get_virtual_folder_by_id_company dir C.id C hC
  have hhold : get_virtual_folder_by_id dir ("holding:" ++ H.id) =
      some (holding_to_folder H) :=
    get_virtual_folder_by_id_holding dir H.id H hH
  constructor
  · simp only [get_folder_path, hloop, hFp, hFd, hFc, hFh]
    simp [hHne, hCne, hDne, hdep, hcomp, hhold]
  · have n12 : create_virtual_id H.id .holding ≠
        create_virtual_id C.id .company :=
      create_virtual_id_ne H.id C.id (by decide)
    have n13 : create_virtual_id H.id .holding ≠
        create_virtual_id D.id .department :=
      create_virtual_id_ne H.id D.id (by decide)
    have n23 : create_virtual_id C.id .company ≠
        create_virtual_id D.id .department :=
      create_virtual_id_ne C.id D.id (by decide)
    have n1F : create_virtual_id H.id .holding ≠ F.id :=
      create_virtual_id_ne_real H.id .holding hFreal
    have n2F : create_virtual_id C.id .company ≠ F.id :=
      create_virtual_id_ne_real C.id .company hFreal
    have n3F : create_virtual_id D.id .department ≠ F.id :=
      create_virtual_id_ne_real D.id .department hFreal
    have h1 : (holding_to_folder H).id = create_virtual_id H.id .holding :=
      rfl
    have h2 : (company_to_folder C).id = create_virtual_id C.id .company :=
      rfl
    have h3 : (department_to_folder dir D).id =
        create_virtual_id D.id .department := rfl
    simp [List.nodup_cons, h1, h2, h3, n12, n13, n23, n1F, n2F, n3F]

/-- C1 witness: the end-to-end scenario H1 ⊃ C1 ⊃ D1 with folder F1 created
directly under D1; get-path returns the four-node breadcrumb. -/
theorem folder_path_under_department_witness :
    get_folder_path
      (OrgDirectory.mk [Holding.mk "h1" "H1"] [Company.mk "c1" "C1" "h1"]
        [Department.mk "d1" "D1" "c1"])
      [Folder.mk "f1" "F1" none [] [] "c1" "d1" "h1"]
      "f1" (User.mk .superadmin "" "") 1 =
      some [holding_to_folder (Holding.mk "h1" "H1"),
        company_to_folder (Company.mk "c1" "C1" "h1"),
        department_to_folder
          (OrgDirectory.mk [Holding.mk "h1" "H1"]
            [Company.mk "c1" "C1" "h1"] [Department.mk "d1" "D1" "c1"])
          (Department.mk "d1" "D1" "c1"),
        Folder.mk "f1" "F1" none [] [] "c1" "d1" "h1"] :=
  (folder_path_under_department
    (OrgDirectory.mk [Holding.mk "h1" "H1"] [Company.mk "c1" "C1" "h1"]
      [Department.mk "d1" "D1" "c1"])
    [Folder.mk "f1" "F1" none [] [] "c1" "d1" "h1"]
    (User.mk .superadmin "" "")
    (Holding.mk "h1" "H1") (Company.mk "c1" "C1" "h1")
    (Department.mk "d1" "D1" "c1")
    (Folder.mk "f1" "F1" none [] [] "c1" "d1" "h1")
    (by decide) (by decide) (by decide) (by decide) (by decide) (by decide)
    (by decide) (by decide) (by decide) (by decide) (by decide) (by decide)
    0).1

end FreedomAdmin
